import Mathlib

/-!
Verification of the banana-slides generation pipeline (`demo.py`,
`backend/services/ai_service.py`).

The Python code is shallowly embedded: dictionaries become association
lists over a JSON-like value type, the two bounded-thread-pool fan-out
stages become functions parameterised by an explicit completion order
(the order in which `as_completed` yields the submitted futures), and a
call into the external generative backend becomes a function from page
index to outcome (for a fixed idea and outline, the request each task
sends is determined by its page index alone).
-/

namespace BananaSlides

/-- Python/JSON values, as produced by `json.loads` and manipulated by the
pipeline.  An object is its ordered key/value list (Python dicts preserve
insertion order; keys are unique). -/
inductive Json where
  | null : Json
  | bool : Bool → Json
  | num : Int → Json
  | str : String → Json
  | arr : List Json → Json
  | obj : List (String × Json) → Json
deriving Repr

/-- A Python dict with string keys, i.e. the representation of one outline
entry or one page: the ordered association list of its fields. -/
abbrev PyDict := List (String × Json)

/-- Python `k in d` on a dict: key membership. -/
def hasKey (d : PyDict) (k : String) : Bool :=
  (d.lookup k).isSome

/-- Python `d[k] = v` on a dict: overwrite the value at `k` if the key is
present (keeping its position), otherwise append the new key at the end.
`page.copy()` followed by this assignment is exactly this pure function. -/
def dictSet : PyDict → String → Json → PyDict
  | [], k, v => [(k, v)]
  | (k', v') :: rest, k, v =>
      if k' == k then (k, v) :: rest else (k', v') :: dictSet rest k v

/-- The list of page dicts stored under an entry's `"pages"` key
(`item["pages"]` in `flatten_outline`).  The source annotates the outline
as `list[dict]` and iterates `item["pages"]` directly; entries whose
`"pages"` value is not a list of objects would raise in Python and lie
outside the shape-valid inputs the claims quantify over, so they default
to the empty expansion here. -/
def pagesOf (item : PyDict) : List PyDict :=
  match item.lookup "pages" with
  | some (Json.arr l) =>
      l.map fun p => match p with | Json.obj kvs => kvs | _ => []
  | _ => []

/-- One iteration of the `for item in outline` loop of `flatten_outline`
(demo.py 52-62, ai_service.py 88-97): an item with both a `"part"` and a
`"pages"` key is expanded, stamping each contained page with the part's
name; any other item is appended unchanged. -/
def flattenItem (item : PyDict) : List PyDict :=
  if hasKey item "part" && hasKey item "pages" then
    (pagesOf item).map fun page =>
      dictSet page "part" ((item.lookup "part").getD Json.null)
  else [item]

/-- `flatten_outline` (demo.py 49-63 and the identical
`AIService.flatten_outline`, ai_service.py 82-98): flatten a possibly
part-structured outline into the ordered page list. -/
def flatten_outline (outline : List PyDict) : List PyDict :=
  (outline.map flattenItem).flatten

/-- An outline entry that is a Part in the spec's data-model sense:
it has a `"part"` key and its `"pages"` key holds a list of objects. -/
def isPartEntry (item : PyDict) : Bool :=
  hasKey item "part" &&
    (match item.lookup "pages" with
     | some (Json.arr l) =>
         l.all fun p => match p with | Json.obj _ => true | _ => false
     | _ => false)

/-- An outline entry that is a standalone Page in the spec's data-model
sense: it has a `"title"` key and neither a `"part"` nor a `"pages"` key. -/
def isPageEntry (item : PyDict) : Bool :=
  !hasKey item "part" && !hasKey item "pages" && hasKey item "title"

/-- Shape-valid outline (spec section 3: an entry is exclusively a Page or
a Part, never both, never neither). -/
def shapeValid (outline : List PyDict) : Bool :=
  outline.all fun item => isPartEntry item || isPageEntry item

/-- Total page count of an outline, as the claims count it: the pages
inside Parts plus the standalone Pages. -/
def totalPages (outline : List PyDict) : Nat :=
  (outline.map fun item =>
    if isPartEntry item then (pagesOf item).length else 1).sum

/-- `enumerate(pages, 1)`: the 1-based indices assigned in emission
order. -/
def enumerate1 {α : Type} (l : List α) : List (Nat × α) :=
  (List.range' 1 l.length).zip l

/-- The index column of `enumerate(pages, 1)`. -/
def assignedIndices (l : List PyDict) : List Nat :=
  (enumerate1 l).map Prod.fst

-- Sanity checks of the embedding on concrete outlines.
example :
    flatten_outline
      [[("part", Json.str "P1"),
        ("pages", Json.arr [Json.obj [("title", Json.str "a")],
                            Json.obj [("title", Json.str "b")]])],
       [("title", Json.str "c"), ("points", Json.arr [])]] =
      [[("title", Json.str "a"), ("part", Json.str "P1")],
       [("title", Json.str "b"), ("part", Json.str "P1")],
       [("title", Json.str "c"), ("points", Json.arr [])]] := rfl

example :
    totalPages
      [[("part", Json.str "P1"),
        ("pages", Json.arr [Json.obj [("title", Json.str "a")],
                            Json.obj [("title", Json.str "b")]])],
       [("title", Json.str "c"), ("points", Json.arr [])]] = 3 := rfl

/-! ### Lemmas about the flattener -/

theorem bool_and_left {a b : Bool} (h : (a && b) = true) : a = true := by
  cases a with
  | false => simp at h
  | true => rfl

theorem bool_and_right {a b : Bool} (h : (a && b) = true) : b = true := by
  cases b with
  | false => simp at h
  | true => rfl

theorem bool_or_cases {a b : Bool} (h : (a || b) = true) :
    a = true ∨ b = true := by
  cases a with
  | true => exact Or.inl rfl
  | false =>
    cases b with
    | true => exact Or.inr rfl
    | false => simp at h

theorem lookup_dictSet : ∀ (d : PyDict) (k : String) (v : Json),
    (dictSet d k v).lookup k = some v
  | [], k, v => by simp [dictSet, List.lookup]
  | (k', v') :: rest, k, v => by
    simp only [dictSet]
    by_cases h : (k' == k) = true
    · simp [h, List.lookup]
    · have h' : k' ≠ k := by simpa using h
      have hne : (k == k') = false := beq_eq_false_iff_ne.mpr (Ne.symm h')
      simp only [Bool.not_eq_true] at h
      simp [h, List.lookup, hne, lookup_dictSet rest k v]

theorem flattenItem_of_part (item : PyDict) (h : isPartEntry item = true) :
    flattenItem item =
      (pagesOf item).map fun page =>
        dictSet page "part" ((item.lookup "part").getD Json.null) := by
  unfold isPartEntry at h
  have h1 : hasKey item "part" = true := bool_and_left h
  have h2 : hasKey item "pages" = true := by
    have h2' := bool_and_right h
    unfold hasKey
    cases hl : item.lookup "pages" with
    | none => rw [hl] at h2'; simp at h2'
    | some j => simp
  unfold flattenItem
  rw [h1, h2]
  rfl

theorem isPageEntry_not_part (item : PyDict) (h : isPageEntry item = true) :
    isPartEntry item = false := by
  unfold isPageEntry at h
  have h1 : hasKey item "part" = false := by
    have := bool_and_left (bool_and_left h)
    simpa using this
  unfold isPartEntry
  rw [h1]
  rfl

theorem flattenItem_of_page (item : PyDict) (h : isPageEntry item = true) :
    flattenItem item = [item] := by
  unfold isPageEntry at h
  have h1 : hasKey item "part" = false := by
    have := bool_and_left (bool_and_left h)
    simpa using this
  unfold flattenItem
  rw [h1]
  rfl

theorem flatten_outline_cons (item : PyDict) (rest : List PyDict) :
    flatten_outline (item :: rest) = flattenItem item ++ flatten_outline rest := by
  simp [flatten_outline]

theorem shapeValid_cons (item : PyDict) (rest : List PyDict)
    (h : shapeValid (item :: rest) = true) :
    (isPartEntry item = true ∨ isPageEntry item = true) ∧ shapeValid rest = true := by
  unfold shapeValid at h
  rw [List.all_cons] at h
  exact ⟨bool_or_cases (bool_and_left h), bool_and_right h⟩

theorem flatten_outline_length (outline : List PyDict)
    (h : shapeValid outline = true) :
    (flatten_outline outline).length = totalPages outline := by
  induction outline with
  | nil => rfl
  | cons item rest ih =>
    obtain ⟨hitem, hrest⟩ := shapeValid_cons item rest h
    have htot : totalPages (item :: rest) =
        (if isPartEntry item then (pagesOf item).length else 1) + totalPages rest := by
      simp [totalPages]
    rw [flatten_outline_cons, List.length_append, ih hrest, htot]
    rcases hitem with hp | hp
    · rw [flattenItem_of_part item hp, List.length_map, if_pos hp]
    · rw [flattenItem_of_page item hp, if_neg (by simp [isPageEntry_not_part item hp])]
      rfl

theorem assignedIndices_eq (l : List PyDict) :
    assignedIndices l = List.range' 1 l.length := by
  unfold assignedIndices enumerate1
  apply List.map_fst_zip
  simp

/-- An outline used as concrete witness input: one Part with two pages
followed by one standalone page. -/
def sampleOutline : List PyDict :=
  [[("part", Json.str "P1"),
    ("pages", Json.arr [Json.obj [("title", Json.str "a")],
                        Json.obj [("title", Json.str "b")]])],
   [("title", Json.str "c"), ("points", Json.arr [])]]

/-! ### Claim C3 -/

/-- C3: flattening is index-stable — for every shape-valid outline with
`P` total pages (pages inside Parts plus standalone Pages), the flattener
emits exactly `P` flat pages, and the 1-based indices that
`enumerate(pages, 1)` assigns in emission order form the contiguous range
`1..P`. -/
theorem flatten_index_stable (outline : List PyDict)
    (h : shapeValid outline = true) :
    (flatten_outline outline).length = totalPages outline ∧
    assignedIndices (flatten_outline outline) =
      List.range' 1 (totalPages outline) := by
  refine ⟨flatten_outline_length outline h, ?_⟩
  rw [assignedIndices_eq, flatten_outline_length outline h]

/-- C3 witness: the sample outline is shape-valid, has 3 total pages,
and flattening it satisfies the claim. -/
theorem flatten_index_stable_witness :
    shapeValid sampleOutline = true ∧
    ((flatten_outline sampleOutline).length = totalPages sampleOutline ∧
     assignedIndices (flatten_outline sampleOutline) =
       List.range' 1 (totalPages sampleOutline)) :=
  ⟨by decide, flatten_index_stable sampleOutline (by decide)⟩

/-! ### Claim C4 -/

/-- C4: flattening is part-tagging-correct — in a shape-valid outline,
every flat page emitted from a Part entry carries exactly that Part's
name under its `"part"` key, and every flat page emitted from a
standalone Page entry carries no `"part"` key. -/
theorem flatten_part_tagging (outline : List PyDict)
    (h : shapeValid outline = true) :
    ∀ item ∈ outline,
      (isPartEntry item = true →
        (item.lookup "part").isSome = true ∧
        ∀ page ∈ flattenItem item, page.lookup "part" = item.lookup "part") ∧
      (isPageEntry item = true →
        ∀ page ∈ flattenItem item, page.lookup "part" = none) := by
  intro item _
  constructor
  · intro hp
    have h1 : hasKey item "part" = true := by
      unfold isPartEntry at hp
      exact bool_and_left hp
    refine ⟨h1, ?_⟩
    intro page hpage
    rw [flattenItem_of_part item hp] at hpage
    obtain ⟨p, _, rfl⟩ := List.mem_map.mp hpage
    unfold hasKey at h1
    cases hl : item.lookup "part" with
    | none => rw [hl] at h1; simp at h1
    | some v => simpa using lookup_dictSet p "part" v
  · intro hp
    intro page hpage
    rw [flattenItem_of_page item hp] at hpage
    have hpage' : page = item := by simpa using hpage
    subst hpage'
    have h1 : hasKey page "part" = false := by
      unfold isPageEntry at hp
      have := bool_and_left (bool_and_left hp)
      simpa using this
    unfold hasKey at h1
    cases hl : page.lookup "part" with
    | none => rfl
    | some v => rw [hl] at h1; simp at h1

/-- C4 witness: part tagging on the sample outline, checked at its Part
entry and at its standalone Page entry. -/
theorem flatten_part_tagging_witness :
    shapeValid sampleOutline = true ∧
    (∀ item ∈ sampleOutline,
      (isPartEntry item = true →
        (item.lookup "part").isSome = true ∧
        ∀ page ∈ flattenItem item, page.lookup "part" = item.lookup "part") ∧
      (isPageEntry item = true →
        ∀ page ∈ flattenItem item, page.lookup "part" = none)) :=
  ⟨by decide, flatten_part_tagging sampleOutline (by decide)⟩

/-! ### Claim C10 -/

/-- C10: the flattener's classification rule — a top-level entry is
expanded as a Part exactly when it has both a `"part"` key and a
`"pages"` key (its pages are then emitted in order, each stamped with
the part's name); every other entry, including one that has a `"part"`
key but no `"pages"` key, is emitted unchanged as a single direct page,
retaining all the keys it already had. -/
theorem flatten_classification (item : PyDict) (rest : List PyDict) :
    ((hasKey item "part" && hasKey item "pages") = true →
      flatten_outline (item :: rest) =
        ((pagesOf item).map fun page =>
          dictSet page "part" ((item.lookup "part").getD Json.null))
          ++ flatten_outline rest) ∧
    ((hasKey item "part" && hasKey item "pages") = false →
      flatten_outline (item :: rest) = item :: flatten_outline rest) := by
  constructor
  · intro hb
    rw [flatten_outline_cons]
    unfold flattenItem
    rw [hb]
    simp
  · intro hb
    rw [flatten_outline_cons]
    unfold flattenItem
    rw [hb]
    simp

/-- C10 witness: an entry with a `"part"` key but no `"pages"` key is
emitted unchanged (keys retained), not expanded. -/
theorem flatten_classification_witness :
    (hasKey [("part", Json.str "X"), ("title", Json.str "t")] "part" &&
      hasKey [("part", Json.str "X"), ("title", Json.str "t")] "pages") = false ∧
    flatten_outline [[("part", Json.str "X"), ("title", Json.str "t")]] =
      [[("part", Json.str "X"), ("title", Json.str "t")]] :=
  ⟨by decide,
   (flatten_classification [("part", Json.str "X"), ("title", Json.str "t")] []).2
     (by decide)⟩

/-! ### Outline reply parsing (`AIService.generate_outline`) -/

/-- The backtick character. -/
def backtickChar : Char := Char.ofNat 96

/-- The opening-brace character. -/
def lbraceChar : Char := Char.ofNat 123

/-- The closing-brace character. -/
def rbraceChar : Char := Char.ofNat 125

/-- Python `str.strip(chars)`: remove leading and trailing characters
that belong to the given character set. -/
def pyStrip (s : String) (set : List Char) : String :=
  ⟨((s.data.dropWhile set.contains).reverse.dropWhile set.contains).reverse⟩

/-- The character set of Python `str.strip()` with no argument (ASCII
whitespace, which covers every reply character the pipeline handles). -/
def pyWhitespace : List Char := [' ', '\t', '\n', '\r', Char.ofNat 11, Char.ofNat 12]

/-- The fence-stripping chain applied to the generator's reply before
JSON parsing (ai_service.py line 78):
`response.text.strip().strip("```json").strip("```").strip()`.
Note that Python's `strip` treats its argument as a character set. -/
def stripOutlineReply (s : String) : String :=
  pyStrip (pyStrip (pyStrip (pyStrip s pyWhitespace)
    [backtickChar, 'j', 's', 'o', 'n']) [backtickChar]) pyWhitespace

/-- JSON insignificant whitespace. -/
def jsonWsChar (c : Char) : Bool :=
  c == ' ' || c == '\t' || c == '\n' || c == '\r'

/-- Skip insignificant whitespace. -/
def skipWs : List Char → List Char
  | [] => []
  | c :: cs => if jsonWsChar c then skipWs cs else c :: cs

/-- Parse the body of a JSON string after its opening quote, up to the
closing quote.  Escape sequences lie outside the fragment the pipeline's
replies use and are rejected. -/
def parseStringBody : List Char → Option (String × List Char)
  | [] => none
  | c :: cs =>
    if c == '"' then some ("", cs)
    else if c == '\\' then none
    else
      match parseStringBody cs with
      | some (s, rest) => some (⟨c :: s.data⟩, rest)
      | none => none

/-- Consume an expected literal character sequence. -/
def expectChars : List Char → List Char → Option (List Char)
  | [], cs => some cs
  | _ :: _, [] => none
  | p :: ps, c :: cs => if p == c then expectChars ps cs else none

/-- Take a maximal run of decimal digits. -/
def takeDigits : List Char → (List Char × List Char)
  | [] => ([], [])
  | c :: cs =>
    if c.isDigit then
      let (ds, rest) := takeDigits cs
      (c :: ds, rest)
    else ([], c :: cs)

/-- Decimal value of a digit run. -/
def digitsToNat (ds : List Char) : Nat :=
  ds.foldl (fun acc c => 10 * acc + (c.toNat - 48)) 0

mutual

/-- One JSON value (fuelled recursive-descent parser; the fuel passed by
`json_loads` always suffices for the input's length). -/
def parseValue : Nat → List Char → Option (Json × List Char)
  | 0, _ => none
  | fuel + 1, cs =>
    match skipWs cs with
    | [] => none
    | c :: rest =>
      if c == '"' then
        (parseStringBody rest).map fun p => (Json.str p.1, p.2)
      else if c == '[' then
        match skipWs rest with
        | c2 :: rest2 =>
          if c2 == ']' then some (Json.arr [], rest2)
          else
            match parseElements fuel (c2 :: rest2) with
            | some (l, rest3) => some (Json.arr l, rest3)
            | none => none
        | [] => none
      else if c == lbraceChar then
        match skipWs rest with
        | c2 :: rest2 =>
          if c2 == rbraceChar then some (Json.obj [], rest2)
          else
            match parseMembers fuel (c2 :: rest2) with
            | some (l, rest3) => some (Json.obj l, rest3)
            | none => none
        | [] => none
      else if c == 't' then
        (expectChars ['r', 'u', 'e'] rest).map fun r => (Json.bool true, r)
      else if c == 'f' then
        (expectChars ['a', 'l', 's', 'e'] rest).map fun r => (Json.bool false, r)
      else if c == 'n' then
        (expectChars ['u', 'l', 'l'] rest).map fun r => (Json.null, r)
      else if c == '-' then
        match takeDigits rest with
        | ([], _) => none
        | (ds, rest2) => some (Json.num (-(digitsToNat ds : Int)), rest2)
      else if c.isDigit then
        match takeDigits (c :: rest) with
        | (ds, rest2) => some (Json.num (digitsToNat ds), rest2)
      else none

/-- The elements of a non-empty JSON array, up to and including `]`. -/
def parseElements : Nat → List Char → Option (List Json × List Char)
  | 0, _ => none
  | fuel + 1, cs =>
    match parseValue fuel cs with
    | none => none
    | some (j, rest) =>
      match skipWs rest with
      | c :: rest2 =>
        if c == ',' then
          match parseElements fuel rest2 with
          | some (l, rest3) => some (j :: l, rest3)
          | none => none
        else if c == ']' then some ([j], rest2)
        else none
      | [] => none

/-- The members of a non-empty JSON object, up to and including the
closing brace. -/
def parseMembers : Nat → List Char → Option (List (String × Json) × List Char)
  | 0, _ => none
  | fuel + 1, cs =>
    match skipWs cs with
    | c :: rest =>
      if c == '"' then
        match parseStringBody rest with
        | none => none
        | some (k, rest2) =>
          match skipWs rest2 with
          | c2 :: rest3 =>
            if c2 == ':' then
              match parseValue fuel rest3 with
              | none => none
              | some (v, rest4) =>
                match skipWs rest4 with
                | c3 :: rest5 =>
                  if c3 == ',' then
                    match parseMembers fuel rest5 with
                    | some (l, rest6) => some ((k, v) :: l, rest6)
                    | none => none
                  else if c3 == rbraceChar then some ([(k, v)], rest5)
                  else none
                | [] => none
            else none
          | [] => none
      else none
    | [] => none

end

/-- Python `json.loads`, restricted to the JSON fragment the pipeline's
replies use (objects, arrays, strings without escapes, integers, the
three literals): parse one value and require only whitespace after it,
otherwise fail as `json.loads` raises `JSONDecodeError`. -/
def json_loads (s : String) : Option Json :=
  match parseValue (2 * s.length + 2) s.data with
  | some (j, rest) => if (skipWs rest).isEmpty then some j else none
  | none => none

/-- The outline-layer parse failure (`OutlineParseError` in the spec's
taxonomy; concretely `json.JSONDecodeError` escaping
`AIService.generate_outline`). -/
inductive OutlineError where
  | parseError : OutlineError
deriving Repr, DecidableEq

/-- `AIService.generate_outline` (ai_service.py 70-80), from the reply
text onward: strip the fence markers, run `json.loads`, and return
whatever it produced — the source performs no validation of the parsed
value's shape. -/
def generate_outline (reply : String) : Except OutlineError Json :=
  match json_loads (stripOutlineReply reply) with
  | some j => Except.ok j
  | none => Except.error OutlineError.parseError

/-- The outline-shape acceptance test the spec describes: the value is a
list and every top-level entry is an object with at least one of a
`"title"` or a `"part"` key. -/
def specShapeOk (j : Json) : Bool :=
  match j with
  | Json.arr items =>
      items.all fun it =>
        match it with
        | Json.obj kvs => (kvs.lookup "title").isSome || (kvs.lookup "part").isSome
        | _ => false
  | _ => false

/-- Modelled from the spec: `generate_outline` as section 4.1 describes
it, failing with `OutlineParseError` also when the parsed value does not
match either accepted outline shape.  Stated only for comparison with
the source-derived `generate_outline`. -/
def generate_outline_specified (reply : String) : Except OutlineError Json :=
  match json_loads (stripOutlineReply reply) with
  | some j =>
      if specShapeOk j then Except.ok j else Except.error OutlineError.parseError
  | none => Except.error OutlineError.parseError

-- Sanity checks of the reply-parsing embedding.
example : stripOutlineReply "  [1, 2] " = "[1, 2]" := rfl
example : json_loads "[\"a\", 1, -2, true, null]" =
    some (Json.arr [Json.str "a", Json.num 1, Json.num (-2),
                    Json.bool true, Json.null]) := rfl
example : json_loads "[1," = none := rfl

/-- A reply wrapped in fenced-code markers, as the spec requires the
parser to tolerate. -/
def sampleFencedReply : String :=
  "```json\n[\x7b\"title\": \"t\", \"points\": [\"p\"]\x7d]\n```"

/-- The outline value `sampleFencedReply` decodes to. -/
def sampleParsedOutline : Json :=
  Json.arr [Json.obj [("title", Json.str "t"),
                      ("points", Json.arr [Json.str "p"])]]

/-! ### Claim C5 -/

/-- C5 counterexample: the reply `"[{}]"` (braces escaped in this file's
literals) is valid JSON whose single top-level entry has neither a
`"title"` nor a `"part"` key, so the claim requires `generate_outline`
to fail with `OutlineParseError`; the code instead returns the parsed
value successfully — it performs no shape validation. -/
theorem generate_outline_accepts_shape_invalid :
    specShapeOk (Json.arr [Json.obj []]) = false ∧
    generate_outline "[\x7b\x7d]" = Except.ok (Json.arr [Json.obj []]) ∧
    generate_outline_specified "[\x7b\x7d]" =
      Except.error OutlineError.parseError :=
  ⟨rfl, rfl, rfl⟩

/-- C5 (amended): the Outline Generator strips leading/trailing
code-fence characters from the reply before JSON parsing and fails with
the parse error exactly when the stripped text is not valid JSON; it
performs no shape validation on the parsed value, returning any
successfully parsed JSON unchanged, and attempts no retry (the result is
a pure function of the single reply). -/
theorem generate_outline_parse_contract (reply : String) :
    (∀ j, json_loads (stripOutlineReply reply) = some j →
      generate_outline reply = Except.ok j) ∧
    (json_loads (stripOutlineReply reply) = none →
      generate_outline reply = Except.error OutlineError.parseError) := by
  constructor
  · intro j hj
    unfold generate_outline
    rw [hj]
  · intro hn
    unfold generate_outline
    rw [hn]

/-- C5 witness: a fenced reply is stripped and parsed successfully. -/
theorem generate_outline_parse_contract_witness :
    json_loads (stripOutlineReply sampleFencedReply) = some sampleParsedOutline ∧
    generate_outline sampleFencedReply = Except.ok sampleParsedOutline :=
  ⟨rfl, (generate_outline_parse_contract sampleFencedReply).1 sampleParsedOutline rfl⟩

/-! ### Image-stage filenames (`generate_single_image`, demo.py 160-169) -/

/-- Python `f"{i:02d}"` for a nonnegative integer: the decimal digits,
left-padded with `'0'` to a minimum width of 2.  Wider numbers are kept
in full. -/
def pyFormat02d (i : Nat) : String :=
  let s := toString i
  if s.length < 2 then ⟨List.replicate (2 - s.length) '0' ++ s.data⟩ else s

/-- The filename the Image Stage persists page `i`'s artifact under:
`f"slide_{i:02d}.png"` (demo.py:166). -/
def slideFilename (i : Nat) : String :=
  "slide_" ++ pyFormat02d i ++ ".png"

/-- Lexicographic strict comparison of character sequences by code
point, i.e. Python `<` on the strings sorted functions compare. -/
def lexLt : List Char → List Char → Bool
  | [], [] => false
  | [], _ :: _ => true
  | _ :: _, [] => false
  | a :: as, b :: bs =>
    if a.toNat < b.toNat then true
    else if b.toNat < a.toNat then false
    else lexLt as bs

theorem lexLt_cons_same (c : Char) (as bs : List Char) :
    lexLt (c :: as) (c :: bs) = lexLt as bs := by
  simp [lexLt]

theorem lexLt_cons_of_lt {a b : Char} (h : a.toNat < b.toNat)
    (as bs : List Char) : lexLt (a :: as) (b :: bs) = true := by
  simp [lexLt, h]

/-- For indices below 100, `f"{i:02d}"` is exactly the two digit
characters of `i`. -/
theorem pyFormat02d_lt_100 : ∀ i : Fin 100,
    pyFormat02d i.val =
      ⟨[Char.ofNat (48 + i.val / 10), Char.ofNat (48 + i.val % 10)]⟩ := by
  decide

theorem digitChar_toNat : ∀ d : Fin 10, (Char.ofNat (48 + d.val)).toNat = 48 + d.val := by
  decide

/-! ### Claim C9 -/

/-- C9 counterexample: the padding width is fixed at 2
(`f"slide_{i:02d}.png"`), so for a deck of 100 pages lexical filename
order disagrees with numeric index order — index 99 precedes index 100
numerically, yet `slide_100.png` sorts lexically before `slide_99.png`. -/
theorem slide_filename_order_breaks_at_100 :
    99 < 100 ∧
    lexLt (slideFilename 100).data (slideFilename 99).data = true ∧
    lexLt (slideFilename 99).data (slideFilename 100).data = false :=
  ⟨by decide, rfl, rfl⟩

/-- C9 (amended): for every deck size `N ≤ 99`, the Image Stage's
filenames `slide_{i:02d}.png` encode the page index with fixed
zero-padded width 2, and lexical order of the produced filenames agrees
with numeric order of the indices `1..N`. -/
theorem slide_filename_lexical_order (i j N : Nat)
    (h1 : 1 ≤ i) (hij : i < j) (hjN : j ≤ N) (hN : N ≤ 99) :
    lexLt (slideFilename i).data (slideFilename j).data = true := by
  have hi : i < 100 := by omega
  have hj : j < 100 := by omega
  have pdi : (pyFormat02d i).data =
      [Char.ofNat (48 + i / 10), Char.ofNat (48 + i % 10)] := by
    rw [pyFormat02d_lt_100 ⟨i, hi⟩]
  have pdj : (pyFormat02d j).data =
      [Char.ofNat (48 + j / 10), Char.ofNat (48 + j % 10)] := by
    rw [pyFormat02d_lt_100 ⟨j, hj⟩]
  have di : (slideFilename i).data =
      's' :: 'l' :: 'i' :: 'd' :: 'e' :: '_' ::
        Char.ofNat (48 + i / 10) :: Char.ofNat (48 + i % 10) ::
        ['.', 'p', 'n', 'g'] := by
    show ("slide_" ++ pyFormat02d i ++ ".png").data = _
    rw [String.data_append, String.data_append, pdi]
    rfl
  have dj : (slideFilename j).data =
      's' :: 'l' :: 'i' :: 'd' :: 'e' :: '_' ::
        Char.ofNat (48 + j / 10) :: Char.ofNat (48 + j % 10) ::
        ['.', 'p', 'n', 'g'] := by
    show ("slide_" ++ pyFormat02d j ++ ".png").data = _
    rw [String.data_append, String.data_append, pdj]
    rfl
  rw [di, dj]
  simp only [lexLt_cons_same]
  have d1i := digitChar_toNat ⟨i / 10, by omega⟩
  have d1j := digitChar_toNat ⟨j / 10, by omega⟩
  have d2i := digitChar_toNat ⟨i % 10, by omega⟩
  have d2j := digitChar_toNat ⟨j % 10, by omega⟩
  simp only at d1i d1j d2i d2j
  rcases Nat.lt_or_ge (i / 10) (j / 10) with hd | hd
  · exact lexLt_cons_of_lt (by rw [d1i, d1j]; omega) _ _
  · have hde : i / 10 = j / 10 := by omega
    rw [hde, lexLt_cons_same]
    have hmod : i % 10 < j % 10 := by omega
    exact lexLt_cons_of_lt (by rw [d2i, d2j]; omega) _ _

/-- C9 witness: in an 11-page deck, the filename of page 2 sorts
lexically before the filename of page 10. -/
theorem slide_filename_lexical_order_witness :
    1 ≤ 2 ∧ 2 < 10 ∧ 10 ≤ 11 ∧ 11 ≤ 99 ∧
    lexLt (slideFilename 2).data (slideFilename 10).data = true :=
  ⟨by decide, by decide, by decide, by decide,
   slide_filename_lexical_order 2 10 11 (by decide) (by decide) (by decide) (by decide)⟩

/-! ### The fan-out / reorder-by-index pattern shared by both pool stages

Both `gen_desc` (demo.py 96-109) and `gen_images_parallel`
(demo.py 178-190) collect `(index, result)` pairs from `as_completed`
into a dict and return `[d[i] for i in sorted(d.keys())]`.  The
completion order of the pool is the explicit `order` argument of the
embedded stages.  `sorted` is Python's stable sort; a stable sort's
output is determined uniquely by the key relation, so it is embedded as
insertion sort.  A missing key would raise `KeyError`, embedded as
`none`. -/

/-- `sorted(d.keys())` for the dict built from the collected pairs
(whose key list, in insertion order, is the completion order). -/
def sortedKeys {α : Type} (pairs : List (Nat × α)) : List Nat :=
  (pairs.map Prod.fst).insertionSort (· ≤ ·)

/-- `[d[i] for i in sorted(d.keys())]`. -/
def pyDictValuesSorted {α : Type} (pairs : List (Nat × α)) : Option (List α) :=
  (sortedKeys pairs).mapM fun i => pairs.lookup i

theorem insertionSort_eq_range (order : List Nat) (a n : Nat)
    (h : order.Perm (List.range' a n)) :
    order.insertionSort (· ≤ ·) = List.range' a n := by
  apply List.eq_of_perm_of_sorted (r := fun x y : Nat => x ≤ y)
    ((List.perm_insertionSort _ order).trans h)
  · exact List.sorted_insertionSort _ order
  · exact List.pairwise_le_range' a n

theorem lookup_map_pair {α : Type} (f : Nat → α) :
    ∀ (order : List Nat) (i : Nat), i ∈ order →
      (order.map fun j => (j, f j)).lookup i = some (f i)
  | [], i, h => absurd h (List.not_mem_nil i)
  | j :: rest, i, h => by
    simp only [List.map_cons, List.lookup]
    by_cases hij : (i == j) = true
    · have hij' : i = j := by simpa using hij
      subst hij'
      simp [hij]
    · have hmem : i ∈ rest := by
        rcases List.mem_cons.mp h with he | hm
        · exact absurd (by simpa using he) (by simpa using hij)
        · exact hm
      simp only [Bool.not_eq_true] at hij
      simp [hij, lookup_map_pair f rest i hmem]

theorem mapM_of_forall_some {α : Type} {g : Nat → Option α} {f : Nat → α} :
    ∀ (l : List Nat), (∀ i ∈ l, g i = some (f i)) →
      l.mapM g = some (l.map f)
  | [], _ => rfl
  | i :: rest, h => by
    rw [List.mapM_cons, h i (List.mem_cons_self i rest),
        mapM_of_forall_some rest fun j hj => h j (List.mem_cons_of_mem i hj)]
    rfl

/-- The keyed result sink of both pool stages: if the completion order is
a permutation of the submitted indices `a..a+n-1` and each task `i`
contributed the pair `(i, f i)`, the stage's visible output is
`[f a, ..., f (a+n-1)]`, independent of the completion order. -/
theorem pyDictValuesSorted_of_perm {α : Type} (f : Nat → α)
    (order : List Nat) (a n : Nat) (h : order.Perm (List.range' a n)) :
    pyDictValuesSorted (order.map fun i => (i, f i)) =
      some ((List.range' a n).map f) := by
  unfold pyDictValuesSorted sortedKeys
  have hk : (order.map fun i => (i, f i)).map Prod.fst = order := by
    rw [List.map_map]
    exact List.map_id' order
  rw [hk, insertionSort_eq_range order a n h]
  exact mapM_of_forall_some _ fun i hi =>
    lookup_map_pair f order i (h.mem_iff.mpr hi)

/-! ### Image Stage (`gen_images_parallel`, demo.py 154-190) -/

/-- The outcome of one `gen_image` call for a page (the external
image-generation collaborator, demo.py:164): it returns an image,
returns a falsy/empty result, or raises an exception. -/
inductive RenderOutcome where
  | image : RenderOutcome
  | noImage : RenderOutcome
  | raised : RenderOutcome
deriving Repr, DecidableEq

/-- `generate_single_image` (demo.py 160-175): try to render page `i`;
on success persist the image under the zero-padded filename inside the
run's output directory and return `(i, path)`; if the generator returned
nothing, or raised (the surrounding `try/except` catches every
exception), return `(i, None)`.  The function is total: no exception
escapes it. -/
def generate_single_image (render : Nat → RenderOutcome) (output_dir : String)
    (i : Nat) : Nat × Option String :=
  match render i with
  | RenderOutcome.image => (i, some (output_dir ++ "/" ++ slideFilename i))
  | RenderOutcome.noImage => (i, none)
  | RenderOutcome.raised => (i, none)

/-- The artifact-path component of page `i`'s render result. -/
def imageResult (render : Nat → RenderOutcome) (output_dir : String)
    (i : Nat) : Option String :=
  (generate_single_image render output_dir i).2

/-- `gen_images_parallel` (demo.py 154-190) for `N` submitted prompts:
the pool yields the tasks in completion order `order` (a permutation of
`1..N`); results are keyed by index and re-read in sorted key order.
The prompt texts are opaque payloads determined by the page index, so
the render outcome is keyed by index. -/
def gen_images_parallel (N : Nat) (render : Nat → RenderOutcome)
    (output_dir : String) (order : List Nat) : Option (List (Option String)) :=
  pyDictValuesSorted (order.map fun i => generate_single_image render output_dir i)

theorem generate_single_image_eq (render : Nat → RenderOutcome)
    (output_dir : String) (i : Nat) :
    generate_single_image render output_dir i =
      (i, imageResult render output_dir i) := by
  unfold imageResult generate_single_image
  cases render i <;> rfl

/-- The Image Stage's output under any completion order that is a
permutation of the submitted indices: the render results in index
order. -/
theorem gen_images_parallel_of_perm (N : Nat) (render : Nat → RenderOutcome)
    (output_dir : String) (order : List Nat)
    (h : order.Perm (List.range' 1 N)) :
    gen_images_parallel N render output_dir order =
      some ((List.range' 1 N).map (imageResult render output_dir)) := by
  unfold gen_images_parallel
  have he : (order.map fun i => generate_single_image render output_dir i) =
      order.map fun i => (i, imageResult render output_dir i) := by
    simp [generate_single_image_eq]
  rw [he]
  exact pyDictValuesSorted_of_perm _ order 1 N h

/-! ### Claim C1 -/

/-- C1: render-stage failure isolation — whatever subset of the `N`
render tasks fails (raises or yields no image), and in whatever order
the pool completes them, the Image Stage returns exactly `N` results in
index order `1..N`, with an artifact path at every succeeding index and
`None` at every failing index; the stage is total, so no exception
escapes it and the run is not aborted. -/
theorem gen_images_parallel_failure_isolating (N : Nat)
    (render : Nat → RenderOutcome) (output_dir : String) (order : List Nat)
    (h : order.Perm (List.range' 1 N)) :
    gen_images_parallel N render output_dir order =
      some ((List.range' 1 N).map (imageResult render output_dir)) ∧
    ((List.range' 1 N).map (imageResult render output_dir)).length = N ∧
    (∀ i, imageResult render output_dir i = none ↔ render i ≠ RenderOutcome.image) ∧
    (∀ i, render i = RenderOutcome.image →
      imageResult render output_dir i =
        some (output_dir ++ "/" ++ slideFilename i)) := by
  refine ⟨gen_images_parallel_of_perm N render output_dir order h, by simp, ?_, ?_⟩
  · intro i
    unfold imageResult generate_single_image
    cases hr : render i <;> simp [hr]
  · intro i hr
    unfold imageResult generate_single_image
    rw [hr]

/-- C1 witness: three pages whose middle render raises — the stage
returns `[some path1, none, some path3]`. -/
theorem gen_images_parallel_failure_isolating_witness :
    ([3, 1, 2] : List Nat).Perm (List.range' 1 3) ∧
    gen_images_parallel 3
      (fun i => if i = 2 then RenderOutcome.raised else RenderOutcome.image)
      "output" [3, 1, 2] =
      some ((List.range' 1 3).map (imageResult
        (fun i => if i = 2 then RenderOutcome.raised else RenderOutcome.image)
        "output")) :=
  ⟨by decide,
   (gen_images_parallel_failure_isolating 3
      (fun i => if i = 2 then RenderOutcome.raised else RenderOutcome.image)
      "output" [3, 1, 2] (by decide)).1⟩

-- The witness's stage output, evaluated concretely.
example :
    gen_images_parallel 3
      (fun i => if i = 2 then RenderOutcome.raised else RenderOutcome.image)
      "output" [3, 1, 2] =
      some [some "output/slide_01.png", none, some "output/slide_03.png"] := rfl

/-! ### Description Stage (`gen_desc`, demo.py 65-110) -/

/-- `generate_page_desc` (demo.py 71-93) for page `i`: ask the text
generator for the page's description and pair the reply with the index.
For a fixed idea and outline, the request is determined by the page
index and the page's own outline entry; the generator's outcome (reply
text, or a raised exception carried as its message) is the function
`descGen`. -/
def generate_page_desc (descGen : Nat → PyDict → Except String String)
    (pages : List PyDict) (i : Nat) : Except String (Nat × String) :=
  (descGen i (pages.getD (i - 1) [])).map fun d => (i, d)

/-- The `as_completed` collection loop of `gen_desc` (demo.py 103-106):
pairs are entered into the dict in completion order; the first future
whose task raised re-raises at `future.result()`, aborting the loop and
the stage. -/
def collectCompleted {α : Type} : List (Except String α) → Except String (List α)
  | [] => Except.ok []
  | r :: rs =>
    match r with
    | Except.error e => Except.error e
    | Except.ok p => (collectCompleted rs).map fun l => p :: l

/-- `gen_desc` (demo.py 65-110): flatten the outline, submit one
description task per page (indices `1..N` via `enumerate(pages, 1)`) to
the pool of 5 workers, collect results in completion order `order`, and
return the description texts sorted by page index. -/
def gen_desc (outline : List PyDict)
    (descGen : Nat → PyDict → Except String String) (order : List Nat) :
    Except String (Option (List String)) :=
  let pages := flatten_outline outline
  match collectCompleted (order.map fun i => generate_page_desc descGen pages i) with
  | Except.error e => Except.error e
  | Except.ok pairs => Except.ok (pyDictValuesSorted pairs)

/-- The description text page `i`'s task produced (meaningful when the
task succeeded). -/
def descResult (descGen : Nat → PyDict → Except String String)
    (pages : List PyDict) (i : Nat) : String :=
  ((descGen i (pages.getD (i - 1) [])).toOption).getD ""

theorem collectCompleted_of_forall_ok {α : Type} {h : Nat → Except String α}
    {g : Nat → α} : ∀ (l : List Nat), (∀ i ∈ l, h i = Except.ok (g i)) →
      collectCompleted (l.map h) = Except.ok (l.map g)
  | [], _ => rfl
  | i :: rest, hall => by
    rw [List.map_cons]
    simp only [collectCompleted]
    rw [hall i (List.mem_cons_self i rest),
        collectCompleted_of_forall_ok rest
          fun j hj => hall j (List.mem_cons_of_mem i hj)]
    rfl

theorem collectCompleted_first_error {α : Type} {h : Nat → Except String α} :
    ∀ (l : List Nat), (∃ i ∈ l, ∃ e, h i = Except.error e) →
      ∃ i ∈ l, ∃ e, h i = Except.error e ∧
        collectCompleted (l.map h) = Except.error e
  | [], hex => absurd hex (by simp)
  | i :: rest, hex => by
    cases hh : h i with
    | error e =>
      refine ⟨i, List.mem_cons_self i rest, e, hh, ?_⟩
      rw [List.map_cons]
      simp only [collectCompleted]
      rw [hh]
    | ok p =>
      have hex' : ∃ j ∈ rest, ∃ e, h j = Except.error e := by
        rcases hex with ⟨j, hj, e, he⟩
        rcases List.mem_cons.mp hj with he' | hm
        · subst he'; rw [hh] at he; cases he
        · exact ⟨j, hm, e, he⟩
      rcases collectCompleted_first_error rest hex' with ⟨j, hj, e, he, hc⟩
      refine ⟨j, List.mem_cons_of_mem i hj, e, he, ?_⟩
      rw [List.map_cons]
      simp only [collectCompleted]
      rw [hh, hc]
      rfl

/-- When every page's description task succeeds and the completion order
is a permutation of `1..N`, `gen_desc` returns the `N` descriptions in
index order. -/
theorem gen_desc_of_perm (outline : List PyDict)
    (descGen : Nat → PyDict → Except String String) (order : List Nat)
    (h : order.Perm (List.range' 1 (flatten_outline outline).length))
    (hok : ∀ i ∈ List.range' 1 (flatten_outline outline).length,
      ∃ d, descGen i ((flatten_outline outline).getD (i - 1) []) = Except.ok d) :
    gen_desc outline descGen order =
      Except.ok (some ((List.range' 1 (flatten_outline outline).length).map
        (descResult descGen (flatten_outline outline)))) := by
  unfold gen_desc
  have htask : ∀ i ∈ order, generate_page_desc descGen (flatten_outline outline) i =
      Except.ok (i, descResult descGen (flatten_outline outline) i) := by
    intro i hi
    rcases hok i (h.mem_iff.mp hi) with ⟨d, hd⟩
    unfold generate_page_desc descResult
    rw [hd]
    rfl
  show (match collectCompleted (order.map fun i =>
          generate_page_desc descGen (flatten_outline outline) i) with
        | Except.error e => Except.error e
        | Except.ok pairs => Except.ok (pyDictValuesSorted pairs)) =
      Except.ok (some ((List.range' 1 (flatten_outline outline).length).map
        (descResult descGen (flatten_outline outline))))
  rw [collectCompleted_of_forall_ok order htask]
  show Except.ok (pyDictValuesSorted (order.map fun i =>
        (i, descResult descGen (flatten_outline outline) i))) = _
  rw [pyDictValuesSorted_of_perm
    (fun i => descResult descGen (flatten_outline outline) i) order 1
    (flatten_outline outline).length h]

/-! ### Claim C2 -/

/-- C2: description-stage order determinism — for a flattened page list
of length `N` with every task succeeding, and any two completion orders
of the pool (permutations of `1..N`), the Description Stage returns
exactly `N` descriptions ordered by page index `1..N` (one per page,
none duplicated or missing, as the output is the map over `1..N`), and
the output is identical for the two completion orders. -/
theorem gen_desc_order_deterministic (outline : List PyDict)
    (descGen : Nat → PyDict → Except String String) (o1 o2 : List Nat)
    (h1 : o1.Perm (List.range' 1 (flatten_outline outline).length))
    (h2 : o2.Perm (List.range' 1 (flatten_outline outline).length))
    (hok : ∀ i ∈ List.range' 1 (flatten_outline outline).length,
      ∃ d, descGen i ((flatten_outline outline).getD (i - 1) []) = Except.ok d) :
    gen_desc outline descGen o1 =
      Except.ok (some ((List.range' 1 (flatten_outline outline).length).map
        (descResult descGen (flatten_outline outline)))) ∧
    gen_desc outline descGen o1 = gen_desc outline descGen o2 ∧
    ((List.range' 1 (flatten_outline outline).length).map
      (descResult descGen (flatten_outline outline))).length =
      (flatten_outline outline).length := by
  refine ⟨gen_desc_of_perm outline descGen o1 h1 hok, ?_, by simp⟩
  rw [gen_desc_of_perm outline descGen o1 h1 hok,
      gen_desc_of_perm outline descGen o2 h2 hok]

/-- C2 witness: two pages, reversed completion order (last submitted
finishes first) against submission order — identical output, 2
descriptions in index order. -/
theorem gen_desc_order_deterministic_witness :
    ([2, 1] : List Nat).Perm
      (List.range' 1 (flatten_outline [[("title", Json.str "a")],
                                       [("title", Json.str "b")]]).length) ∧
    gen_desc [[("title", Json.str "a")], [("title", Json.str "b")]]
        (fun i _ => Except.ok (toString i)) [2, 1] =
      Except.ok (some ((List.range' 1
        (flatten_outline [[("title", Json.str "a")],
                          [("title", Json.str "b")]]).length).map
        (descResult (fun i _ => Except.ok (toString i))
          (flatten_outline [[("title", Json.str "a")],
                            [("title", Json.str "b")]])))) :=
  ⟨by decide,
   (gen_desc_order_deterministic [[("title", Json.str "a")], [("title", Json.str "b")]]
      (fun i _ => Except.ok (toString i)) [2, 1] [1, 2]
      (by decide) (by decide)
      (fun i _ => ⟨toString i, rfl⟩)).1⟩

-- The witness's stage output, evaluated concretely.
example :
    gen_desc [[("title", Json.str "a")], [("title", Json.str "b")]]
        (fun i _ => Except.ok (toString i)) [2, 1] =
      Except.ok (some ["1", "2"]) := rfl

/-! ### Assembler (`create_pptx_from_images`, demo.py 192-242) -/

/-- `pathlib.Path.stem`: the filename without its last suffix (a leading
dot alone does not start a suffix). -/
def stemChars (cs : List Char) : List Char :=
  match cs.reverse.dropWhile (fun c => !(c == '.')) with
  | [] => cs
  | _ :: rest => if rest.isEmpty then cs else rest.reverse

/-- `Path.stem` on a filename. -/
def stem (s : String) : String :=
  ⟨stemChars s.data⟩

/-- Find the first `slide_` followed by at least one digit inside a
character sequence and return the digits' value, as
`re.search(r'slide_(\d+)', ...)` does with `\d+` greedy. -/
def findSlideNum : List Char → Option Nat
  | [] => none
  | c :: rest =>
    match expectChars ['s', 'l', 'i', 'd', 'e', '_'] (c :: rest) with
    | some after =>
      match takeDigits after with
      | ([], _) => findSlideNum rest
      | (ds, _) => some (digitsToNat ds)
    | none => findSlideNum rest

/-- `extract_number` (demo.py 203-205): the numeric index encoded in a
slide filename's stem, or 0 when the pattern does not match. -/
def extract_number (filename : String) : Nat :=
  (findSlideNum (stem filename).data).getD 0

/-- The result of `create_pptx_from_images`: the ordered image files
handed to the packaging collaborator (one slide added per file, in
sorted order) and the fact that the presentation file was saved.  The
source calls `prs.save` unconditionally, so `saved` is always true when
the function runs. -/
structure PptxResult where
  slides : List String
  saved : Bool
deriving Repr, DecidableEq

/-- `create_pptx_from_images` (demo.py 192-242), from the discovered
file list onward: `slide_files` is whatever `glob("slide_*.png")`
returned (its order is unspecified); the files are sorted with
`key=extract_number` — Python's sort is stable, and a stable sort's
output is determined uniquely by the key relation, so it is embedded as
insertion sort — then each file is added as one slide and the
presentation is saved. -/
def create_pptx_from_images (slide_files : List String) : PptxResult :=
  { slides := slide_files.insertionSort
      (fun a b => extract_number a ≤ extract_number b),
    saved := true }

-- Sanity check of the filename-number extraction.
example : extract_number "slide_02.png" = 2 := rfl
example : extract_number "slide_10.png" = 10 := rfl
example : extract_number "notes.txt" = 0 := rfl

/-! ### Claim C7 -/

/-- C7: assembler numeric ordering — the Assembler hands the packaging
collaborator exactly the discovered files (a permutation), ordered by
the numeric index extracted from each filename; in particular, for
artifact names encoding indices 1, 2, 10, 11 listed lexically (10 and 11
before 2), the numeric order 1, 2, 10, 11 is produced. -/
theorem create_pptx_numeric_order (slide_files : List String) :
    ((create_pptx_from_images slide_files).slides).Perm slide_files ∧
    List.Pairwise (fun a b => extract_number a ≤ extract_number b)
      ((create_pptx_from_images slide_files).slides) ∧
    (create_pptx_from_images
        ["slide_1.png", "slide_10.png", "slide_11.png", "slide_2.png"]).slides =
      ["slide_1.png", "slide_2.png", "slide_10.png", "slide_11.png"] := by
  refine ⟨List.perm_insertionSort _ slide_files, ?_, rfl⟩
  haveI : IsTotal String (fun a b => extract_number a ≤ extract_number b) :=
    ⟨fun a b => Nat.le_total _ _⟩
  haveI : IsTrans String (fun a b => extract_number a ≤ extract_number b) :=
    ⟨fun _ _ _ => Nat.le_trans⟩
  exact List.sorted_insertionSort _ slide_files

/-! ### Pipeline orchestrator (`gen_ppt`, demo.py 244-301) -/

/-- `gen_prompts` (demo.py 124-152): one render instruction per
(flat page, description) pair at the same index.  The instruction's
prompt text is an opaque payload (spec section 1 non-goals), so the
embedding keeps the pair that determines it. -/
def gen_prompts (outline : List PyDict) (desc : List String) :
    List (PyDict × String) :=
  (flatten_outline outline).zip desc

/-- The outcome of one run, as observable from `gen_ppt`'s behaviour
after the outline is in hand: the per-page render results it returns,
and the packaging call if one was made (`None` when the
`if successful:` guard at demo.py 297 skipped packaging). -/
structure RunResult where
  images : List (Option String)
  packaged : Option PptxResult
deriving Repr, DecidableEq

/-- `gen_ppt` (demo.py 244-301) from the generated outline onward:
generate the descriptions (a failure there propagates and aborts the
run before any prompt building, rendering or assembly), build the
prompts, render all pages in parallel, and package the successful
artifacts only when at least one exists.  The files found in the
run's timestamped output directory are exactly the successfully
persisted artifacts. -/
def gen_ppt (outline : List PyDict)
    (descGen : Nat → PyDict → Except String String) (descOrder : List Nat)
    (render : Nat → RenderOutcome) (renderOrder : List Nat)
    (output_dir : String) : Except String (Option RunResult) :=
  match gen_desc outline descGen descOrder with
  | Except.error e => Except.error e
  | Except.ok none => Except.ok none
  | Except.ok (some desc) =>
    let prompts := gen_prompts outline desc
    match gen_images_parallel prompts.length render output_dir renderOrder with
    | none => Except.ok none
    | some image_files =>
      let successful := image_files.filterMap id
      Except.ok (some
        { images := image_files,
          packaged := if successful.isEmpty then none
                      else some (create_pptx_from_images successful) })

/-! ### Claim C6 -/

/-- C6: description failure is run-fatal — if any page's description
task fails, `gen_desc` raises that page's failure
(`DescriptionGenerationError` in the spec's taxonomy) and the failure
propagates out of `gen_ppt`, aborting the whole run: `gen_ppt` never
reaches prompt building, image rendering or assembly, which in this
embedding only occur inside its successful branch. -/
theorem gen_desc_failure_fatal (outline : List PyDict)
    (descGen : Nat → PyDict → Except String String) (descOrder : List Nat)
    (render : Nat → RenderOutcome) (renderOrder : List Nat) (output_dir : String)
    (hfail : ∃ i ∈ descOrder, ∃ e,
      descGen i ((flatten_outline outline).getD (i - 1) []) = Except.error e) :
    ∃ i ∈ descOrder, ∃ e,
      descGen i ((flatten_outline outline).getD (i - 1) []) = Except.error e ∧
      gen_desc outline descGen descOrder = Except.error e ∧
      gen_ppt outline descGen descOrder render renderOrder output_dir =
        Except.error e := by
  have htaskfail : ∃ i ∈ descOrder, ∃ e,
      (fun i => generate_page_desc descGen (flatten_outline outline) i) i =
        Except.error e := by
    rcases hfail with ⟨i, hi, e, he⟩
    refine ⟨i, hi, e, ?_⟩
    show generate_page_desc descGen (flatten_outline outline) i = Except.error e
    unfold generate_page_desc
    rw [he]
    rfl
  rcases collectCompleted_first_error descOrder htaskfail with ⟨j, hj, e, he, hcol⟩
  have hdg : descGen j ((flatten_outline outline).getD (j - 1) []) =
      Except.error e := by
    unfold generate_page_desc at he
    cases hd : descGen j ((flatten_outline outline).getD (j - 1) []) with
    | error x =>
      rw [hd] at he
      cases he
      rfl
    | ok d =>
      rw [hd] at he
      cases he
  have hgd : gen_desc outline descGen descOrder = Except.error e := by
    unfold gen_desc
    show (match collectCompleted (descOrder.map fun i =>
            generate_page_desc descGen (flatten_outline outline) i) with
          | Except.error e => Except.error e
          | Except.ok pairs => Except.ok (pyDictValuesSorted pairs)) = _
    rw [hcol]
  refine ⟨j, hj, e, hdg, hgd, ?_⟩
  unfold gen_ppt
  rw [hgd]

/-- C6 witness: a two-page run whose first page's description task
raises — the whole run aborts with that failure. -/
theorem gen_desc_failure_fatal_witness :
    ∃ i ∈ ([2, 1] : List Nat), ∃ e,
      (fun i (_ : PyDict) => if i = 1 then Except.error "boom"
        else (Except.ok "d" : Except String String)) i
        ((flatten_outline [[("title", Json.str "a")],
                           [("title", Json.str "b")]]).getD (i - 1) []) =
        Except.error e ∧
      gen_desc [[("title", Json.str "a")], [("title", Json.str "b")]]
        (fun i _ => if i = 1 then Except.error "boom" else Except.ok "d")
        [2, 1] = Except.error e ∧
      gen_ppt [[("title", Json.str "a")], [("title", Json.str "b")]]
        (fun i _ => if i = 1 then Except.error "boom" else Except.ok "d")
        [2, 1] (fun _ => RenderOutcome.image) [1, 2] "output" =
        Except.error e :=
  gen_desc_failure_fatal [[("title", Json.str "a")], [("title", Json.str "b")]]
    (fun i _ => if i = 1 then Except.error "boom" else Except.ok "d")
    [2, 1] (fun _ => RenderOutcome.image) [1, 2] "output"
    ⟨1, by decide, "boom", rfl⟩

/-! ### Claim C8 -/

theorem filterMap_id_replicate_none {α : Type} :
    ∀ n : Nat, (List.replicate n (none : Option α)).filterMap id = []
  | 0 => rfl
  | n + 1 => by
    rw [List.replicate_succ, List.filterMap_cons]
    exact filterMap_id_replicate_none n

/-- Reduction of `gen_ppt` once the description stage has succeeded. -/
theorem gen_ppt_ok_branch (outline : List PyDict)
    (descGen : Nat → PyDict → Except String String) (descOrder : List Nat)
    (render : Nat → RenderOutcome) (renderOrder : List Nat) (output_dir : String)
    (desc : List String)
    (hgd : gen_desc outline descGen descOrder = Except.ok (some desc)) :
    gen_ppt outline descGen descOrder render renderOrder output_dir =
      (match gen_images_parallel (gen_prompts outline desc).length render
          output_dir renderOrder with
       | none => Except.ok none
       | some image_files =>
         Except.ok (some
           { images := image_files,
             packaged := if (image_files.filterMap id).isEmpty then none
                         else some (create_pptx_from_images
                           (image_files.filterMap id)) })) := by
  unfold gen_ppt
  rw [hgd]

/-- Reduction of `gen_ppt` once both pool stages' outputs are known. -/
theorem gen_ppt_images_branch (outline : List PyDict)
    (descGen : Nat → PyDict → Except String String) (descOrder : List Nat)
    (render : Nat → RenderOutcome) (renderOrder : List Nat) (output_dir : String)
    (desc : List String) (image_files : List (Option String))
    (hgd : gen_desc outline descGen descOrder = Except.ok (some desc))
    (himg : gen_images_parallel (gen_prompts outline desc).length render
        output_dir renderOrder = some image_files) :
    gen_ppt outline descGen descOrder render renderOrder output_dir =
      Except.ok (some
        { images := image_files,
          packaged := if (image_files.filterMap id).isEmpty then none
                      else some (create_pptx_from_images
                        (image_files.filterMap id)) }) := by
  rw [gen_ppt_ok_branch outline descGen descOrder render renderOrder
    output_dir desc hgd, himg]

/-- C8: assembler empty-input behaviour — when every render fails, so
that zero artifacts exist for the run, the orchestrator's
`if successful:` guard (demo.py:297) never invokes the Assembler: no
packaging call is made (`packaged = none`), so no empty output artifact
is produced, and the all-`None` per-page results list is returned up the
stack, reporting the empty condition to the caller. -/
theorem gen_ppt_zero_artifacts (outline : List PyDict)
    (descGen : Nat → PyDict → Except String String) (descOrder : List Nat)
    (render : Nat → RenderOutcome) (renderOrder : List Nat) (output_dir : String)
    (hdo : descOrder.Perm (List.range' 1 (flatten_outline outline).length))
    (hok : ∀ i ∈ List.range' 1 (flatten_outline outline).length,
      ∃ d, descGen i ((flatten_outline outline).getD (i - 1) []) = Except.ok d)
    (hro : renderOrder.Perm (List.range' 1 (flatten_outline outline).length))
    (hfail : ∀ i, render i ≠ RenderOutcome.image) :
    gen_ppt outline descGen descOrder render renderOrder output_dir =
      Except.ok (some
        { images := List.replicate (flatten_outline outline).length none,
          packaged := none }) := by
  have himg : ∀ i, imageResult render output_dir i = none := by
    intro i
    unfold imageResult generate_single_image
    cases hr : render i with
    | image => exact absurd hr (hfail i)
    | noImage => rfl
    | raised => rfl
  have hdesc0 : ((List.range' 1 (flatten_outline outline).length).map
      (descResult descGen (flatten_outline outline))).length =
      (flatten_outline outline).length := by simp
  have hplen : (gen_prompts outline
      ((List.range' 1 (flatten_outline outline).length).map
        (descResult descGen (flatten_outline outline)))).length =
      (flatten_outline outline).length := by
    unfold gen_prompts
    rw [List.length_zip, hdesc0, Nat.min_self]
  have hrep : (List.range' 1 (flatten_outline outline).length).map
      (imageResult render output_dir) =
      List.replicate (flatten_outline outline).length none := by
    rw [List.eq_replicate_iff]
    refine ⟨by simp, ?_⟩
    intro b hb
    rcases List.mem_map.mp hb with ⟨i, _, rfl⟩
    exact himg i
  have himgs : gen_images_parallel (gen_prompts outline
      ((List.range' 1 (flatten_outline outline).length).map
        (descResult descGen (flatten_outline outline)))).length render
      output_dir renderOrder =
      some (List.replicate (flatten_outline outline).length none) := by
    rw [hplen, gen_images_parallel_of_perm (flatten_outline outline).length
      render output_dir renderOrder hro, hrep]
  rw [gen_ppt_images_branch outline descGen descOrder render renderOrder
    output_dir _ _ (gen_desc_of_perm outline descGen descOrder hdo hok) himgs]
  rw [filterMap_id_replicate_none]
  rfl

/-- C8 witness: a two-page run where both renders raise — packaging is
skipped and the all-`None` results are returned. -/
theorem gen_ppt_zero_artifacts_witness :
    gen_ppt [[("title", Json.str "a")], [("title", Json.str "b")]]
        (fun _ _ => Except.ok "d") [2, 1]
        (fun _ => RenderOutcome.raised) [2, 1] "output" =
      Except.ok (some
        { images := List.replicate
            (flatten_outline [[("title", Json.str "a")],
                              [("title", Json.str "b")]]).length none,
          packaged := none }) :=
  gen_ppt_zero_artifacts [[("title", Json.str "a")], [("title", Json.str "b")]]
    (fun _ _ => Except.ok "d") [2, 1]
    (fun _ => RenderOutcome.raised) [2, 1] "output"
    (by decide) (fun i _ => ⟨"d", rfl⟩) (by decide)
    (fun _ h => RenderOutcome.noConfusion h)

end BananaSlides
